import Mathlib

/-!
Shallow embedding of the `video_utils` repository (DinoHub/video_utils):
* `src/video_utils/video_getter_cv2.py` — class `VideoStream` (cv2 backend)
* `src/video_utils/video_getter_vlc.py` — class `VideoStream` (vlc backend)
* `src/video_utils/video_manager.py` — class `VideoManager`

Frames are modelled by an arbitrary type `V` (a numpy array in the source).
Python `collections.deque(maxlen=m)` is modelled by a `List V` whose head is
the LEFT end of the deque: `appendleft` conses at the head, `pop` removes at
the tail (the oldest element, since the loop inserts with `appendleft`), and
a full deque evicts at the tail on `appendleft`.

Wall-clock instants (`time.time()`) are modelled by rationals; the
acquisition loop takes the current instant and the capture outcome as an
explicit environment, and side effects (`time.sleep`, recorder writes,
spawning a reconnect thread) are returned as an explicit effect list.
-/

namespace VideoUtils

/-- Python `deque(maxlen=m).appendleft(x)` on a deque modelled as a list with
its newest element at the head: with no `maxlen` it conses; with `maxlen = m`
the result keeps the `m` newest elements, evicting the oldest (tail) entry
when the deque is full.  (`src/video_utils/video_getter_cv2.py:48-50,167`) -/
def dequeAppendleft (maxlen : Option Nat) (x : α) (q : List α) : List α :=
  match maxlen with
  | none => x :: q
  | some m => List.take m (x :: q)

/-- Inserting a list of frames in order, oldest first, each by `appendleft`
(the acquisition loop's only insertion,
`src/video_utils/video_getter_cv2.py:167`). -/
def insertAll (maxlen : Option Nat) (xs : List α) (q : List α) : List α :=
  xs.foldl (fun acc x => dequeAppendleft maxlen x acc) q

/-- Python `deque.pop()` — removes and returns the rightmost (oldest) entry
(`src/video_utils/video_getter_cv2.py:223`): the value popped. -/
def dequePop (q : List α) : Option α :=
  q.getLast?

/-- The deque after a `pop()` (no-op modelling aside: Python raises on an
empty deque, but the source only pops under `if self.more()`). -/
def dequeAfterPop (q : List α) : List α :=
  q.dropLast

/-- Draining with a recursion fuel (the deque's length suffices: each `pop()`
removes one entry). -/
def drainFuel : Nat → List α → List α
  | 0, _ => []
  | n + 1, q =>
    match q.getLast? with
    | none => []
    | some v => v :: drainFuel n q.dropLast

/-- Draining the deque by repeated `pop()` until empty: the sequence of
frames a consumer sees when reading the buffer back with no interleaved
inserts. -/
def drain (q : List α) : List α :=
  drainFuel q.length q

theorem drainFuel_eq_reverse :
    ∀ (n : Nat) (q : List α), q.length ≤ n → drainFuel n q = q.reverse := by
  intro n
  induction n with
  | zero =>
    intro q hq
    have : q = [] := List.eq_nil_of_length_eq_zero (Nat.le_zero.mp hq)
    subst this
    rfl
  | succ n ih =>
    intro q hq
    by_cases hnil : q = []
    · subst hnil; rfl
    · simp only [drainFuel]
      rw [List.getLast?_eq_getLast q hnil]
      have hlen : q.dropLast.length ≤ n := by
        simp only [List.length_dropLast]
        omega
      rw [ih q.dropLast hlen]
      conv_rhs => rw [← List.dropLast_append_getLast hnil]
      simp

theorem drain_eq_reverse (q : List α) : drain q = q.reverse :=
  drainFuel_eq_reverse q.length q le_rfl

theorem insertAll_bounded (m : Nat) (xs q : List α) (hq : q.length ≤ m) :
    insertAll (some m) xs q = List.take m (xs.reverse ++ q) := by
  induction xs generalizing q with
  | nil =>
    simp only [insertAll, List.foldl_nil, List.reverse_nil, List.nil_append]
    exact (List.take_of_length_le hq).symm
  | cons x xs ih =>
    simp only [insertAll, List.foldl_cons] at *
    have hq' : (dequeAppendleft (some m) x q).length ≤ m := by
      simp [dequeAppendleft]
    rw [ih (dequeAppendleft (some m) x q) hq']
    simp only [dequeAppendleft, List.reverse_cons, List.append_assoc,
      List.singleton_append]
    rw [List.take_append_eq_append_take, List.take_append_eq_append_take]
    congr 1
    rw [List.take_take]
    congr 1
    omega

/-- Mutable state of one `VideoStream` worker
(`src/video_utils/video_getter_cv2.py:20-75`).  Fields keep the Python
attribute names.  The cv2 capture object / vlc player session is abstracted
to the boolean `streamOpen` (held vs released); the recorder handle to
`out_vid : Bool`.  `resize_fn` receives `currentFrame`, which may be Python
`None`, hence its domain is `Option V`. -/
structure VideoStream (V : Type) where
  video_feed_name : String
  sourceType : String
  stopped : Bool
  inited : Bool
  streamOpen : Bool
  Q : List V
  maxlen : Option Nat
  max_cache : Nat
  currentFrame : Option V
  resize_fn : Option (Option V → Option V)
  manual_video_fps : Option Int
  fps : Option Int
  vid_width : Option Int
  vid_height : Option Int
  do_reconnect : Bool
  reconnect_threshold_sec : ℚ
  pauseTime : Option ℚ
  printTime : Option ℚ
  frame_crop : Option (List Int)
  record_source_video : Bool
  out_vid : Bool

/-- Constructor arguments of `VideoStream.__init__`
(`src/video_utils/video_getter_cv2.py:20-34`), with the defaults of the
source. -/
structure StreamConfig (V : Type) where
  video_feed_name : String
  sourceType : String
  manual_video_fps : Int
  queue_size : Option Nat := some 3
  recording_dir : Option String := none
  reconnect_threshold_sec : ℚ := 20
  do_reconnect : Bool := true
  resize_fn : Option (Option V → Option V) := none
  frame_crop : Option (List Int) := none
  rtsp_tcp : Bool := true
  max_cache : Nat := 10

/-- The only validation `VideoStream.__init__` performs on the crop
rectangle: `assert len(frame_crop) == 4` when a crop is given
(`src/video_utils/video_getter_cv2.py:67-68`). -/
def frameCropAssertPasses (fc : Option (List Int)) : Bool :=
  match fc with
  | none => true
  | some l => l.length == 4

/-- Constructor `VideoStream.__init__` (`src/video_utils/video_getter_cv2.py:20-75`):
builds the initial worker state, or fails on the
`assert len(frame_crop) == 4` check. `manual_video_fps == -1` is normalized
to `None`; the deque starts empty with `maxlen = queue_size`; the worker
starts in the stopped, uninitialized state holding a fresh capture handle. -/
def VideoStream.mk_init (cfg : StreamConfig V) : Except String (VideoStream V) :=
  if frameCropAssertPasses cfg.frame_crop then
    Except.ok
      { video_feed_name := cfg.video_feed_name
        sourceType := cfg.sourceType
        stopped := true
        inited := false
        streamOpen := true
        Q := []
        maxlen := cfg.queue_size
        max_cache := cfg.max_cache
        currentFrame := none
        resize_fn := cfg.resize_fn
        manual_video_fps :=
          if cfg.manual_video_fps = -1 then none else some cfg.manual_video_fps
        fps := none
        vid_width := none
        vid_height := none
        do_reconnect := cfg.do_reconnect
        reconnect_threshold_sec := cfg.reconnect_threshold_sec
        pauseTime := none
        printTime := none
        frame_crop := cfg.frame_crop
        record_source_video := cfg.recording_dir.isSome
        out_vid := false }
  else Except.error "AssertionError: Given FRAME CROP is invalid"

/-- Values the underlying capture reports at `open` time:
`int(stream.get(cv2.CAP_PROP_FPS))`, `int(stream.get(3))`,
`int(stream.get(4))` (already truncated to integers as the source does). -/
structure OpenEnv where
  sourceFps : Int
  sourceWidth : Int
  sourceHeight : Int

/-- The fps decision of `VideoStream.init_src`
(`src/video_utils/video_getter_cv2.py:81-87`): `if not self.manual_video_fps`
is Python truthiness, so both `None` and `0` take the source-fps branch,
where a source fps of 0 is corrected to 30; otherwise the manual value is
used. -/
def initFps (manual_video_fps : Option Int) (sourceFps : Int) : Int :=
  if manual_video_fps = none ∨ manual_video_fps = some 0 then
    if sourceFps = 0 then 30 else sourceFps
  else manual_video_fps.getD 0

/-- Source opening, `VideoStream.init_src` (`src/video_utils/video_getter_cv2.py:77-115`).
Width/height come from the capture, or from the crop rectangle
`l, t, r, b` as `r - l`, `b - t`.  `inited` is set when the width is
non-zero. -/
def VideoStream.init_src (s : VideoStream V) (env : OpenEnv) : VideoStream V :=
  let fps : Int := initFps s.manual_video_fps env.sourceFps
  let wh : Int × Int :=
    match s.frame_crop with
    | none => (env.sourceWidth, env.sourceHeight)
    | some fc => (fc.getD 2 0 - fc.getD 0 0, fc.getD 3 0 - fc.getD 1 0)
  { s with
    streamOpen := true
    fps := some fps
    vid_width := some wh.1
    vid_height := some wh.2
    out_vid := s.record_source_video && (if wh.1 ≠ 0 then true else s.inited)
    inited := if wh.1 ≠ 0 then true else s.inited }

/-- Method `VideoStream.start` (`src/video_utils/video_getter_cv2.py:132-143`):
`init_src` if not yet initialized, clear the stop flag, spawn the `get`
loop (the spawned loop has not run yet when `start` returns, so it makes no
other state change at this point). -/
def VideoStream.start (s : VideoStream V) (env : OpenEnv) : VideoStream V :=
  let s1 := if s.inited then s else s.init_src env
  { s1 with stopped := false }

/-- Method `VideoStream.more` (`src/video_utils/video_getter_cv2.py:228-230`):
`bool(self.Q)`. -/
def VideoStream.more (s : VideoStream V) : Bool :=
  !s.Q.isEmpty

/-- Python `self.resize_fn(x)` when `self.resize_fn` is set, else the
identity non-application. -/
def applyResize (r : Option (Option V → Option V)) (x : Option V) : Option V :=
  match r with
  | some f => f x
  | none => x

/-- Method `VideoStream.read` (`src/video_utils/video_getter_cv2.py:220-226`): if
the deque is non-empty, pop the oldest entry into `currentFrame`; then, if a
resize hook is set, re-assign `currentFrame := resize_fn(currentFrame)`
(even when nothing was popped); return `currentFrame`. -/
def VideoStream.read (s : VideoStream V) : Option V × VideoStream V :=
  let s1 :=
    if s.more then
      { s with currentFrame := s.Q.getLast?, Q := s.Q.dropLast }
    else s
  let s2 :=
    match s1.resize_fn with
    | some f => { s1 with currentFrame := f s1.currentFrame }
    | none => s1
  (s2.currentFrame, s2)

/-- Method `VideoStream.stop` (`src/video_utils/video_getter_cv2.py:232-247`):
no-op when already stopped; otherwise set the flag, release the capture,
clear the deque (guarded by `more()`), release the recorder. -/
def VideoStream.stop (s : VideoStream V) : VideoStream V :=
  if s.stopped then s
  else
    { s with
      stopped := true
      streamOpen := false
      Q := if s.more then [] else s.Q
      out_vid := false }

/-- Observable side effects of one acquisition-loop iteration. -/
inductive Effect (V : Type) where
  | sleep (seconds : ℚ)
  | recordFrame (frame : V)
  | spawnReconnect
  deriving DecidableEq

/-- Environment of one acquisition-loop iteration: the wall-clock instant
`time.time()` and the outcome of `self.stream.read()` /
`video_take_snapshot` (`none` = capture failed or raised). -/
structure GetEnv (V : Type) where
  now : ℚ
  capture : Option V

/-- Result of one loop iteration: the new state, the effects it emitted, and
whether the iteration left the `while` loop (`break`, or the
`while not self.stopped` guard failing). -/
structure StepResult (V : Type) where
  state : VideoStream V
  effects : List (Effect V)
  broke : Bool

/-- The `if not grabbed:` failure branch shared verbatim by the two backends
(`src/video_utils/video_getter_cv2.py:181-216`,
`src/video_utils/video_getter_vlc.py:104-139`): start/continue the countdown
since the first failed capture; once `countdown_time <= 0`, spawn the
reconnect thread (reconnection enabled) and break, or — reconnection
disabled — stop and break when the deque is empty, else sleep 1 s and keep
waiting for the deque to drain.  `accEff` carries effects already emitted
earlier in the iteration (a success path that later raised). -/
def failureStep (s : VideoStream V) (env : GetEnv V) (accEff : List (Effect V)) :
    StepResult V :=
  let pT : ℚ := match s.pauseTime with
    | none => env.now
    | some t => t
  let prT : ℚ := match s.pauseTime with
    | none => env.now
    | some _ => match s.printTime with
      | some t => t
      | none => env.now
  let time_since_pause := env.now - pT
  let countdown_time := s.reconnect_threshold_sec - time_since_pause
  let time_since_print := env.now - prT
  let prT' := if time_since_print > 1 ∧ countdown_time ≥ 0 then env.now else prT
  let s' := { s with pauseTime := some pT, printTime := some prT' }
  if countdown_time ≤ 0 then
    if s'.do_reconnect then
      ⟨s', accEff ++ [Effect.spawnReconnect], true⟩
    else if !s'.more then
      ⟨s'.stop, accEff, true⟩
    else
      ⟨s', accEff ++ [Effect.sleep 1], false⟩
  else ⟨s', accEff, false⟩

/-- Success path of the continuous (cv2) iteration after `grabbed` is true
(`src/video_utils/video_getter_cv2.py:162-175`): crop, `Q.appendleft`,
best-effort recorder write, then `time.sleep(1 / self.fps)`.  When
`self.fps` is `None` or `<= 0` the sleep expression raises
(`TypeError` / `ZeroDivisionError` / `ValueError` from a negative sleep),
which the surrounding `except` turns into `grabbed = False` — but only
after the frame was already inserted. -/
def successStep (cropApply : List Int → V → V) (recorderInLoop : Bool)
    (s : VideoStream V) (env : GetEnv V) (frame0 : V) : StepResult V :=
  let frame := match s.frame_crop with
    | some fc => cropApply fc frame0
    | none => frame0
  let s1 := { s with Q := dequeAppendleft s.maxlen frame s.Q }
  let recEff :=
    if recorderInLoop && s1.record_source_video then [Effect.recordFrame frame]
    else []
  match s1.fps with
  | some f =>
    if 0 < f then
      ⟨{ s1 with pauseTime := none }, recEff ++ [Effect.sleep (1 / (f : ℚ))], false⟩
    else failureStep s1 env recEff
  | none => failureStep s1 env recEff

/-- One iteration of `VideoStream.get`, continuous (cv2) backend
(`src/video_utils/video_getter_cv2.py:151-218`).  A stopped worker's loop
guard fails: no iteration runs and no state change or effect occurs.  A
running iteration first applies the producer-pause valve
(`len(self.Q) > self.max_cache` → `time.sleep(0.01)` and retry), then
captures. -/
def cv2GetStep (cropApply : List Int → V → V) (s : VideoStream V)
    (env : GetEnv V) : StepResult V :=
  if s.stopped then ⟨s, [], true⟩
  else if s.Q.length > s.max_cache then ⟨s, [Effect.sleep (1 / 100)], false⟩
  else
    match env.capture with
    | some frame0 => successStep cropApply true s env frame0
    | none => failureStep s env []

/-- One iteration of the snapshot (vlc) backend's `get` loop
(`src/video_utils/video_getter_vlc.py:85-141`).  Identical policy, except:
no producer-pause valve, no in-loop recorder write — and, notably, the same
`time.sleep(1 / self.fps)` after every successful snapshot insert
(`src/video_utils/video_getter_vlc.py:98`). -/
def vlcGetStep (cropApply : List Int → V → V) (s : VideoStream V)
    (env : GetEnv V) : StepResult V :=
  if s.stopped then ⟨s, [], true⟩
  else
    match env.capture with
    | some frame0 => successStep cropApply false s env frame0
    | none => failureStep s env []

/-- Running the cv2 `get` loop through a finite schedule of iteration
environments, stopping early when an iteration breaks out of the loop. -/
def runGet (cropApply : List Int → V → V) (s : VideoStream V) :
    List (GetEnv V) → VideoStream V × List (Effect V)
  | [] => (s, [])
  | env :: rest =>
    let r := cv2GetStep cropApply s env
    if r.broke then (r.state, r.effects)
    else
      let p := runGet cropApply r.state rest
      (p.1, r.effects ++ p.2)

/-- One entry of the list `VideoManager.read` returns
(`src/video_utils/video_manager.py:208-218`): the literal empty list `[]`
appended when the worker's buffer has no frame yet, or the value returned by
the worker's `read()`. -/
inductive AggEntry (V : Type) where
  | emptyMarker
  | frame (f : Option V)
  deriving DecidableEq

/-- Method `VideoManager.read` (`src/video_utils/video_manager.py:208-218`): one
entry per configured source in configuration order; a worker is consulted
with `read()` only when `more()` reports a buffered frame, otherwise the
empty marker is appended and the worker is left untouched.  Returns the
entries and the workers' new states. -/
def VideoManager.read (vids : List (VideoStream V)) :
    List (AggEntry V) × List (VideoStream V) :=
  match vids with
  | [] => ([], [])
  | w :: rest =>
    let tail := VideoManager.read rest
    if w.more then
      let r := w.read
      (AggEntry.frame r.1 :: tail.1, r.2 :: tail.2)
    else
      (AggEntry.emptyMarker :: tail.1, w :: tail.2)

/-- Aggregator state: its own lifecycle flag plus the ordered worker list
(`src/video_utils/video_manager.py:56-92`). -/
structure ManagerState (V : Type) where
  stopped : Bool
  videos : List (VideoStream V)

/-- Replace the element at one index, leaving every other element alone. -/
def modifyAt (i : Nat) (f : α → α) : List α → List α
  | [] => []
  | x :: xs =>
    match i with
    | 0 => f x :: xs
    | n + 1 => x :: modifyAt n f xs

/-- Worker `i`'s own acquisition thread running some iterations of its `get`
loop while it is part of an aggregator: only that worker's state changes
(the threads never touch the manager or each other,
`src/video_utils/video_getter_cv2.py:151-218`). -/
def managerWorkerRun (cropApply : List Int → V → V) (m : ManagerState V)
    (i : Nat) (envs : List (GetEnv V)) : ManagerState V :=
  { m with videos := modifyAt i (fun w => (runGet cropApply w envs).1) m.videos }

/-- Address produced for one descriptor line by
`VideoManager.from_list_file` (`src/video_utils/video_manager.py:125-147`):
`usb` paths become `int(path)` device indices, `file` paths stay as the bare
path (after the existence assertion). -/
inductive StreamAddr where
  | usbIdx (i : Int)
  | filePath (p : String)
  deriving DecidableEq

/-- One parsed descriptor entry: `splits[0]`, the source type, the address
appended to `streams`, and the raw third field if the line had exactly three
fields (the source converts it with `float`; that conversion is outside the
claims and kept as the raw text). -/
structure SrcEntry where
  name : String
  sourceType : String
  addr : StreamAddr
  fpsField : Option String
  deriving DecidableEq

/-- Python `str.split(sep)` on the character list of a string: always at
least one group, empty groups kept (`"".split(",") == [""]`). -/
def splitListOn (sep : Char) : List Char → List (List Char)
  | [] => [[]]
  | c :: cs =>
    let r := splitListOn sep cs
    if c = sep then [] :: r
    else
      match r with
      | [] => [[c]]
      | g :: gs => (c :: g) :: gs

/-- Python `str.split(sep, 1)` restricted to the first separator: the part
before the first occurrence and everything after it, or `none` when the
separator does not occur. -/
def breakAtChar (sep : Char) : List Char → Option (List Char × List Char)
  | [] => none
  | c :: cs =>
    if c = sep then some ([], cs)
    else (breakAtChar sep cs).map fun p => (c :: p.1, p.2)

/-- The whitespace characters Python's `str.strip()` removes. -/
def isPySpace (c : Char) : Bool :=
  c = ' ' || c = '\t' || c = '\n' || c = '\r' ||
  c = Char.ofNat 11 || c = Char.ofNat 12

/-- Python `str.strip()`. -/
def pyStrip (s : String) : String :=
  String.mk (((s.data.dropWhile isPySpace).reverse.dropWhile isPySpace).reverse)

/-- Python `str.startswith("#")`. -/
def startsWithHash (s : String) : Bool :=
  match s.data with
  | c :: _ => c = '#'
  | [] => false

/-- Digit-string value for `int()`: `none` unless the list is a non-empty
run of decimal digits. -/
def digitsToNat (ds : List Char) : Option Nat :=
  match ds with
  | [] => none
  | _ =>
    ds.foldl
      (fun acc c =>
        match acc with
        | none => none
        | some n => if c.isDigit then some (n * 10 + (c.toNat - 48)) else none)
      (some 0)

/-- Python `int(s)` on the strings the descriptor file can contain:
surrounding whitespace, an optional sign, then decimal digits; anything
else raises `ValueError` (`none` here). -/
def pyInt (s : String) : Option Int :=
  let l := ((s.data.dropWhile isPySpace).reverse.dropWhile isPySpace).reverse
  match l with
  | '-' :: ds => (digitsToNat ds).map fun n => -(n : Int)
  | '+' :: ds => (digitsToNat ds).map fun n => (n : Int)
  | ds => (digitsToNat ds).map fun n => (n : Int)

/-- Python `url.split(":", 1)` unpacked into two variables: split at the
first colon only; `none` when there is no colon (the unpacking then raises
`ValueError`). -/
def splitUrlOnce (url : String) : Option (String × String) :=
  (breakAtChar ':' url.data).map fun p => (String.mk p.1, String.mk p.2)

/-- Parsing of one line of the descriptor file inside
`VideoManager.from_list_file` (`src/video_utils/video_manager.py:120-154`),
against a filesystem oracle `fileExists` standing for
`Path(video_path).is_file()`.  `none` = the line was skipped (comment);
otherwise the entry, or the exception the line raises.  For any source type
other than `usb` and `file` the branch first evaluates
`set("rtsp", "http", "https")`, which passes three arguments to `set()` and
therefore raises `TypeError` before the membership assertion is ever
tested. -/
def parseLine (fileExists : String → Bool) (line : String) :
    Option (Except String SrcEntry) :=
  let l := pyStrip line
  if startsWithHash l then none
  else
    let splits := (splitListOn ',' l.data).map String.mk
    match splits with
    | [] => some (Except.error "IndexError: list index out of range")
    | name :: restFields =>
      match restFields with
      | [] => some (Except.error "IndexError: list index out of range")
      | url :: rest2 =>
        match splitUrlOnce url with
        | none =>
          some (Except.error "ValueError: not enough values to unpack")
        | some (sourceType, path) =>
          let fpsField := if splits.length = 3 then rest2.head? else none
          if sourceType = "usb" then
            match pyInt path with
            | some i =>
              some (Except.ok ⟨name, sourceType, StreamAddr.usbIdx i, fpsField⟩)
            | none =>
              some (Except.error "ValueError: invalid literal for int")
          else if sourceType = "file" then
            if fileExists path then
              some (Except.ok ⟨name, sourceType, StreamAddr.filePath path, fpsField⟩)
            else
              some (Except.error
                "AssertionError: defined as file but it does not exist")
          else
            some (Except.error "TypeError: set expected at most 1 argument, got 3")

/-- The line loop of `from_list_file`
(`src/video_utils/video_manager.py:115-154`): parse lines in order, abort on
the first raising line, and track `pure_files_only`, which starts `True` and
is cleared by every `usb` entry (the network branch also clears it, but only
after its raising `set(...)` call, so no successful entry reaches that
assignment). -/
def parseListFile (fileExists : String → Bool) :
    List String → Except String (List SrcEntry × Bool)
  | [] => Except.ok ([], true)
  | line :: rest =>
    match parseLine fileExists line with
    | none => parseListFile fileExists rest
    | some (Except.error e) => Except.error e
    | some (Except.ok entry) =>
      (parseListFile fileExists rest).map fun p =>
        (entry :: p.1, (entry.sourceType == "file") && p.2)

/-- The buffer-capacity decision of `from_list_file`
(`src/video_utils/video_manager.py:155-158` together with the `queue_size=3`
default of `VideoManager.__init__`): the entries plus the `queue_size`
eventually given to every worker.  `queue_sizeKw = none` models "no
`queue_size` key in kwargs"; `some q` models an explicitly passed value. -/
def from_list_file (fileExists : String → Bool) (lines : List String)
    (queue_sizeKw : Option (Option Nat)) :
    Except String (List SrcEntry × Option Nat) :=
  (parseListFile fileExists lines).map fun p =>
    ( p.1,
      if p.2 && queue_sizeKw.isNone then none
      else queue_sizeKw.getD (some 3) )

/-- Worker states reachable through the operations the source exposes on a
cv2 `VideoStream`: construction, `start`, `stop`, `read` (directly or via
the manager), and iterations of the `get` loop. -/
inductive Reachable : VideoStream V → Prop where
  | init (cfg : StreamConfig V) (s : VideoStream V)
      (h : VideoStream.mk_init cfg = Except.ok s) : Reachable s
  | startOp (s : VideoStream V) (env : OpenEnv) :
      Reachable s → Reachable (s.start env)
  | stopOp (s : VideoStream V) : Reachable s → Reachable s.stop
  | readOp (s : VideoStream V) : Reachable s → Reachable s.read.2
  | getOp (cropApply : List Int → V → V) (s : VideoStream V) (env : GetEnv V) :
      Reachable s → Reachable (cv2GetStep cropApply s env).state

theorem read_state_stopped (s : VideoStream V) : s.read.2.stopped = s.stopped := by
  unfold VideoStream.read
  dsimp only
  split <;> split <;> rfl

theorem read_state_Q (s : VideoStream V) :
    s.read.2.Q = if s.more then s.Q.dropLast else s.Q := by
  unfold VideoStream.read
  dsimp only
  split <;> split <;> simp_all

/-- Calling `stop()` leaves an empty buffer on any worker satisfying the
stopped-implies-empty invariant. -/
theorem stop_Q_nil (s : VideoStream V) (hinv : s.stopped = true → s.Q = []) :
    s.stop.Q = [] := by
  unfold VideoStream.stop
  split
  · exact hinv (by assumption)
  · dsimp only
    unfold VideoStream.more
    split
    · rfl
    · rename_i h
      simpa [List.isEmpty_iff] using h

theorem failureStep_inv (s : VideoStream V) (env : GetEnv V)
    (accEff : List (Effect V)) (hinv : s.stopped = true → s.Q = []) :
    (failureStep s env accEff).state.stopped = true →
    (failureStep s env accEff).state.Q = [] := by
  unfold failureStep
  dsimp only
  repeat' split
  all_goals intro h
  all_goals
    first
      | exact hinv h
      | exact stop_Q_nil _ (fun hh => hinv hh)

theorem failureStep_stopped_mono (s : VideoStream V) (env : GetEnv V)
    (accEff : List (Effect V)) (hs : s.stopped = false) :
    (failureStep s env accEff).state.stopped = true →
    (failureStep s env accEff).state.Q = [] :=
  failureStep_inv s env accEff (fun h => absurd h (by simp [hs]))

theorem successStep_inv (cropApply : List Int → V → V)
    (recorderInLoop : Bool) (s : VideoStream V) (env : GetEnv V) (frame0 : V)
    (hs : s.stopped = false) :
    (successStep cropApply recorderInLoop s env frame0).state.stopped = true →
    (successStep cropApply recorderInLoop s env frame0).state.Q = [] := by
  unfold successStep
  dsimp only
  repeat' split
  all_goals intro h
  all_goals
    first
      | exact failureStep_stopped_mono _ _ _ hs h
      | exact absurd h (by simp [hs])

theorem cv2GetStep_inv (cropApply : List Int → V → V) (s : VideoStream V)
    (env : GetEnv V) (hinv : s.stopped = true → s.Q = []) :
    (cv2GetStep cropApply s env).state.stopped = true →
    (cv2GetStep cropApply s env).state.Q = [] := by
  unfold cv2GetStep
  split
  · exact hinv
  · rename_i hrun
    have hs : s.stopped = false := by
      revert hrun
      cases s.stopped <;> simp
    repeat' split
    all_goals intro h
    all_goals
      first
        | exact successStep_inv _ _ _ _ _ hs h
        | exact failureStep_stopped_mono _ _ _ hs h
        | exact absurd h (by simp [hs])

/-- Invariant: a worker observed stopped always has an empty frame buffer
(the buffer is created empty, `stop()` clears it, and every insertion
happens in a running iteration). -/
theorem reachable_stopped_empty (s : VideoStream V) (h : Reachable s) :
    s.stopped = true → s.Q = [] := by
  induction h with
  | init cfg s h =>
    intro _
    unfold VideoStream.mk_init at h
    split at h
    · injection h with h'
      subst h'
      rfl
    · simp at h
  | startOp s env _ _ =>
    intro hstop
    simp only [VideoStream.start] at hstop
    simp at hstop
  | stopOp s _ ih =>
    intro _
    exact stop_Q_nil s ih
  | readOp s _ ih =>
    intro hstop
    rw [read_state_stopped] at hstop
    rw [read_state_Q, ih hstop]
    simp
  | getOp cropApply s env _ ih =>
    exact cv2GetStep_inv cropApply s env ih

/-! ## Claims -/

/-- C1: For every Frame Buffer with capacity `N ≥ 1`, inserting `N + k`
frames (`k ≥ 1`) with no reads in between leaves exactly `N` frames in the
buffer, and those are the `(k+1)`-th through `(N+k)`-th inserted (the last
`N`, i.e. `xs.drop k`), returned in insertion order when the buffer is read
back by repeated `pop()`; the first read returns the `(k+1)`-th inserted
frame (with capacity 3 and `F1..F5` this is `F3`). -/
theorem C1_frame_buffer_sliding_window {V : Type} (N k : Nat) (xs : List V)
    (hN : 1 ≤ N) (hk : 1 ≤ k) (hlen : xs.length = N + k) :
    (insertAll (some N) xs []).length = N ∧
    drain (insertAll (some N) xs []) = xs.drop k ∧
    dequePop (insertAll (some N) xs []) = (xs.drop k).head? := by
  have hq : insertAll (some N) xs [] = List.take N xs.reverse := by
    rw [insertAll_bounded N xs [] (by simp)]
    simp
  have hrev : List.take N xs.reverse = (xs.drop k).reverse := by
    rw [List.take_reverse]
    have hNk : xs.length - N = k := by omega
    rw [hNk]
  have hdrain : drain (insertAll (some N) xs []) = xs.drop k := by
    rw [hq, drain_eq_reverse, hrev, List.reverse_reverse]
  refine ⟨?_, hdrain, ?_⟩
  · rw [hq]
    simp only [List.length_take, List.length_reverse, hlen]
    omega
  · rw [hq, hrev]
    simp only [dequePop, List.getLast?_reverse]

/-- C1 witness: the spec's own scenario — capacity 3, frames `F1..F5`
(`1..5`) inserted in order, no reads in between: the buffer holds exactly 3
frames, reading it back yields `[3, 4, 5]`, and the first `read()` returns
`F3`. -/
theorem C1_frame_buffer_sliding_window_witness :
    (insertAll (some 3) [1, 2, 3, 4, 5] ([] : List Nat)).length = 3 ∧
    drain (insertAll (some 3) [1, 2, 3, 4, 5] ([] : List Nat)) = [3, 4, 5] ∧
    dequePop (insertAll (some 3) [1, 2, 3, 4, 5] ([] : List Nat)) = some 3 := by
  have h := C1_frame_buffer_sliding_window 3 2 [1, 2, 3, 4, 5]
    (by decide) (by decide) (by decide)
  exact ⟨h.1, h.2.1, h.2.2⟩

theorem read_more_spec (s : VideoStream V) (h : s.more = true) :
    s.read.1 = applyResize s.resize_fn s.Q.getLast? ∧
    s.read.2.Q = s.Q.dropLast ∧
    s.read.2.currentFrame = applyResize s.resize_fn s.Q.getLast? := by
  unfold VideoStream.read applyResize
  dsimp only
  rw [if_pos h]
  cases hr : s.resize_fn <;> simp [hr]

/-- C2: `VideoManager.read()` returns one entry per configured source, in
configuration order: a worker with a buffered frame has its oldest frame
popped, with the optional resize hook applied; a worker with an empty
buffer contributes the explicit empty marker and its state is completely
untouched.  The model is a total function emitting no sleeps — `read()`
never blocks or waits. -/
theorem C2_manager_read {V : Type} (vids : List (VideoStream V)) :
    ((VideoManager.read vids).1.length = vids.length ∧
     (VideoManager.read vids).2.length = vids.length) ∧
    (∀ i, i < vids.length → ∀ w, vids[i]? = some w →
      (w.more = false →
        (VideoManager.read vids).1[i]? = some AggEntry.emptyMarker ∧
        (VideoManager.read vids).2[i]? = some w) ∧
      (w.more = true →
        (VideoManager.read vids).1[i]? =
          some (AggEntry.frame (applyResize w.resize_fn w.Q.getLast?)) ∧
        (VideoManager.read vids).2[i]? = some w.read.2 ∧
        w.read.2.Q = w.Q.dropLast ∧
        w.read.1 = applyResize w.resize_fn w.Q.getLast?)) := by
  induction vids with
  | nil =>
    refine ⟨⟨rfl, rfl⟩, ?_⟩
    intro i hi
    simp at hi
  | cons w rest ih =>
    constructor
    · unfold VideoManager.read
      dsimp only
      by_cases hw : w.more
      · simp [hw, ih.1.1, ih.1.2]
      · simp [hw, ih.1.1, ih.1.2]
    · intro i hi w' hw'
      match i with
      | 0 =>
        simp only [List.getElem?_cons_zero, Option.some.injEq] at hw'
        subst hw'
        constructor
        · intro hmore
          unfold VideoManager.read
          simp [hmore]
        · intro hmore
          have hspec := read_more_spec w hmore
          unfold VideoManager.read
          rw [if_pos hmore]
          refine ⟨?_, ?_, hspec.2.1, hspec.1⟩
          · simp only [List.getElem?_cons_zero]
            rw [hspec.1]
          · simp only [List.getElem?_cons_zero]
      | Nat.succ j =>
        simp only [List.getElem?_cons_succ] at hw'
        have hj : j < rest.length := by
          simp at hi
          omega
        have hrec := ih.2 j hj w' hw'
        unfold VideoManager.read
        dsimp only
        by_cases hwmore : w.more = true
        · rw [if_pos hwmore]
          simp only [List.getElem?_cons_succ]
          exact hrec
        · rw [if_neg hwmore]
          simp only [List.getElem?_cons_succ]
          exact hrec

/-- A concrete running worker over `Nat` frames with buffer contents `q`,
used to evaluate the theorems on explicit inputs. -/
def sampleStream (q : List Nat) : VideoStream Nat :=
  { video_feed_name := "cam1"
    sourceType := "rtsp"
    stopped := false
    inited := true
    streamOpen := true
    Q := q
    maxlen := some 3
    max_cache := 10
    currentFrame := none
    resize_fn := none
    manual_video_fps := none
    fps := some 30
    vid_width := some 640
    vid_height := some 480
    do_reconnect := true
    reconnect_threshold_sec := 20
    pauseTime := none
    printTime := none
    frame_crop := none
    record_source_video := false
    out_vid := false }

/-- C2 witness: two sources, the first with a buffered frame and the second
empty — `read()` yields the popped frame for the first and the empty marker
for the second, and leaves the empty worker's state untouched. -/
theorem C2_manager_read_witness :
    (VideoManager.read [sampleStream [5], sampleStream []]).1[0]? =
      some (AggEntry.frame (some 5)) ∧
    (VideoManager.read [sampleStream [5], sampleStream []]).1[1]? =
      some AggEntry.emptyMarker ∧
    (VideoManager.read [sampleStream [5], sampleStream []]).2[1]? =
      some (sampleStream []) := by
  have h := C2_manager_read [sampleStream [5], sampleStream []]
  have h0 := (h.2 0 (by decide) (sampleStream [5]) rfl).2 rfl
  have h1 := (h.2 1 (by decide) (sampleStream []) rfl).1 rfl
  exact ⟨h0.1, h1.1, h1.2⟩

/-- A worker in the failure countdown with reconnection disabled and nothing
buffered: running, `do_reconnect = False`, empty deque, countdown anchored
at the first failure instant `t0`. -/
def CountdownIdle (s : VideoStream V) (t0 : ℚ) : Prop :=
  s.stopped = false ∧ s.do_reconnect = false ∧ s.Q = [] ∧ s.pauseTime = some t0

/-- The terminal self-stop: lifecycle flag set, backend session released,
buffer empty. -/
def SelfStopped (s : VideoStream V) : Prop :=
  s.stopped = true ∧ s.streamOpen = false ∧ s.Q = []

theorem cv2_failing_step_eq (cropApply : List Int → V → V) (s : VideoStream V)
    (e : GetEnv V) (t0 : ℚ) (h : CountdownIdle s t0) (hcap : e.capture = none) :
    cv2GetStep cropApply s e = failureStep s e [] := by
  obtain ⟨h1, h2, h3, h4⟩ := h
  unfold cv2GetStep
  rw [if_neg (by simp [h1]), if_neg (by simp [h3]), hcap]

theorem failureStep_not_expired (s : VideoStream V) (e : GetEnv V) (t0 : ℚ)
    (h : CountdownIdle s t0) (hlt : e.now - t0 < s.reconnect_threshold_sec) :
    CountdownIdle (failureStep s e []).state t0 ∧
    (failureStep s e []).effects = [] ∧
    (failureStep s e []).broke = false ∧
    (failureStep s e []).state.reconnect_threshold_sec =
      s.reconnect_threshold_sec := by
  obtain ⟨h1, h2, h3, h4⟩ := h
  unfold failureStep
  simp only [h4]
  rw [if_neg (by push_neg; linarith)]
  exact ⟨⟨h1, h2, h3, rfl⟩, rfl, rfl, rfl⟩

theorem failureStep_expired (s : VideoStream V) (e : GetEnv V) (t0 : ℚ)
    (h : CountdownIdle s t0) (hge : s.reconnect_threshold_sec ≤ e.now - t0) :
    SelfStopped (failureStep s e []).state ∧
    (failureStep s e []).effects = [] ∧
    (failureStep s e []).broke = true := by
  obtain ⟨h1, h2, h3, h4⟩ := h
  unfold failureStep
  simp only [h4]
  rw [if_pos (by linarith)]
  rw [if_neg (by simp [h2])]
  rw [if_pos (by simp [VideoStream.more, h3])]
  refine ⟨?_, rfl, rfl⟩
  unfold VideoStream.stop
  rw [if_neg (by simp [h1])]
  refine ⟨rfl, rfl, ?_⟩
  simp [VideoStream.more, h3]

theorem runGet_stopped_noop (cropApply : List Int → V → V) (s : VideoStream V)
    (envs : List (GetEnv V)) (hs : s.stopped = true) :
    runGet cropApply s envs = (s, []) := by
  cases envs with
  | nil => rfl
  | cons e rest =>
    unfold runGet cv2GetStep
    rw [if_pos hs]
    rfl

theorem modifyAt_ne (i j : Nat) (f : α → α) (l : List α) (hij : j ≠ i) :
    (modifyAt i f l)[j]? = l[j]? := by
  induction l generalizing i j with
  | nil =>
    cases i <;> rfl
  | cons x xs ih =>
    match i with
    | 0 =>
      match j with
      | 0 => exact absurd rfl hij
      | Nat.succ j' => simp [modifyAt]
    | Nat.succ i' =>
      match j with
      | 0 => simp [modifyAt]
      | Nat.succ j' =>
        simp only [modifyAt, List.getElem?_cons_succ]
        exact ih i' j' (fun hh => hij (by rw [hh]))

/-- C3: with reconnection disabled and an empty Frame Buffer, a worker whose
captures all fail, once the wall clock passes the first failure instant by
at least `reconnect_threshold_sec`, self-stops: lifecycle flag set, backend
session released, buffer empty, and no reconnect thread is ever spawned.  A
stopped worker's loop does nothing more (it stays Stopped — only `start()`
clears the flag), and a worker's loop running inside an aggregator changes
neither the aggregator's own flag nor any other worker. -/
theorem C3_no_reconnect_self_stop {V : Type} :
    (∀ (cropApply : List Int → V → V) (s : VideoStream V) (t0 : ℚ)
        (envs : List (GetEnv V)),
      CountdownIdle s t0 →
      (∀ e ∈ envs, e.capture = none) →
      (∃ e ∈ envs, s.reconnect_threshold_sec ≤ e.now - t0) →
      SelfStopped (runGet cropApply s envs).1 ∧
      Effect.spawnReconnect ∉ (runGet cropApply s envs).2) ∧
    (∀ (cropApply : List Int → V → V) (s : VideoStream V)
        (envs : List (GetEnv V)),
      s.stopped = true → runGet cropApply s envs = (s, [])) ∧
    (∀ (s : VideoStream V) (env : OpenEnv), (s.start env).stopped = false) ∧
    (∀ (cropApply : List Int → V → V) (m : ManagerState V) (i : Nat)
        (envs : List (GetEnv V)),
      (managerWorkerRun cropApply m i envs).stopped = m.stopped ∧
      ∀ j, j ≠ i →
        (managerWorkerRun cropApply m i envs).videos[j]? = m.videos[j]?) := by
  refine ⟨?_, ?_, ?_, ?_⟩
  · intro cropApply s t0 envs
    induction envs generalizing s with
    | nil =>
      intro _ _ hex
      obtain ⟨e, he, _⟩ := hex
      simp at he
    | cons e rest ih =>
      intro hci hfail hex
      have hstep := cv2_failing_step_eq cropApply s e t0 hci
        (hfail e (List.mem_cons_self e rest))
      by_cases hexp : s.reconnect_threshold_sec ≤ e.now - t0
      · have h2 := failureStep_expired s e t0 hci hexp
        unfold runGet
        rw [hstep]
        simp only [h2.2.2, if_true]
        refine ⟨h2.1, ?_⟩
        rw [h2.2.1]
        simp
      · have h2 := failureStep_not_expired s e t0 hci (lt_of_not_le hexp)
        obtain ⟨e', he', hge⟩ := hex
        rcases List.mem_cons.mp he' with he' | he'
        · subst he'
          exact absurd hge hexp
        · have hex' : ∃ e'' ∈ rest,
              (failureStep s e []).state.reconnect_threshold_sec ≤
                e''.now - t0 := by
            refine ⟨e', he', ?_⟩
            rw [h2.2.2.2]
            exact hge
          have hrec := ih (failureStep s e []).state h2.1
            (fun e'' he'' => hfail e'' (List.mem_cons_of_mem e he'')) hex'
          unfold runGet
          rw [hstep]
          simp only [h2.2.2.1, if_false, Bool.false_eq_true]
          rw [h2.2.1]
          simp only [List.nil_append]
          exact hrec
  · intro cropApply s envs hs
    exact runGet_stopped_noop cropApply s envs hs
  · intro s env
    rfl
  · intro cropApply m i envs
    refine ⟨rfl, ?_⟩
    intro j hij
    exact modifyAt_ne i j _ m.videos hij

/-- A concrete worker sitting in the disabled-reconnect countdown: running,
empty buffer, first failure recorded at instant 0, threshold 20 s. -/
def countdownStream : VideoStream Nat :=
  { sampleStream [] with do_reconnect := false, pauseTime := some 0 }

/-- C3 witness: at instant 25 (≥ 20 s past the first failure at 0) one more
failing iteration self-stops the concrete worker without spawning a
reconnect; the stopped worker's loop is then a no-op; `start()` resumes it;
and running worker 1's loop inside a two-worker aggregator leaves worker 0
and the aggregator flag untouched. -/
theorem C3_no_reconnect_self_stop_witness :
    (SelfStopped (runGet (fun _ v => v) countdownStream [⟨25, none⟩]).1 ∧
      Effect.spawnReconnect ∉
        (runGet (fun _ v => v) countdownStream [⟨25, none⟩]).2) ∧
    runGet (fun _ v => v) (sampleStream []).stop [⟨26, none⟩] =
      ((sampleStream []).stop, []) ∧
    ((sampleStream []).stop.start ⟨30, 640, 480⟩).stopped = false ∧
    (managerWorkerRun (fun _ v => v)
        ⟨false, [sampleStream [7], countdownStream]⟩ 1 [⟨25, none⟩]).stopped =
      false ∧
    (managerWorkerRun (fun _ v => v)
        ⟨false, [sampleStream [7], countdownStream]⟩ 1 [⟨25, none⟩]).videos[0]? =
      some (sampleStream [7]) := by
  have h := C3_no_reconnect_self_stop (V := Nat)
  refine ⟨?_, ?_, ?_, ?_, ?_⟩
  · exact h.1 (fun _ v => v) countdownStream 0 [⟨25, none⟩]
      ⟨rfl, rfl, rfl, rfl⟩
      (by
        intro e he
        rw [List.mem_singleton] at he
        subst he
        rfl)
      ⟨⟨25, none⟩, List.mem_singleton.mpr rfl, by norm_num [countdownStream, sampleStream]⟩
  · exact h.2.1 (fun _ v => v) (sampleStream []).stop [⟨26, none⟩] rfl
  · exact h.2.2.1 (sampleStream []).stop ⟨30, 640, 480⟩
  · exact (h.2.2.2 (fun _ v => v)
      ⟨false, [sampleStream [7], countdownStream]⟩ 1 [⟨25, none⟩]).1
  · exact (h.2.2.2 (fun _ v => v)
      ⟨false, [sampleStream [7], countdownStream]⟩ 1 [⟨25, none⟩]).2 0
      (by decide)

theorem successStep_sleep {V : Type} (cropApply : List Int → V → V)
    (recorderInLoop : Bool) (s : VideoStream V) (e : GetEnv V) (f0 : V)
    (fps : Int) (hfps : s.fps = some fps) (hpos : 0 < fps) :
    Effect.sleep (1 / (fps : ℚ)) ∈
      (successStep cropApply recorderInLoop s e f0).effects := by
  unfold successStep
  dsimp only
  rw [hfps]
  dsimp only
  rw [if_pos hpos]
  simp

/-- C4 counterexample: the claim says the snapshot (vlc) backend skips the
pacing sleep entirely for every successful capture, but
`src/video_utils/video_getter_vlc.py:98` executes `time.sleep(1/self.fps)`
after every successful snapshot insert: a concrete successful vlc iteration
(fps 30, snapshot frame 7 grabbed into an empty buffer) inserts the frame
and emits the pacing sleep of 1/30 s. -/
theorem C4_vlc_sleep_counterexample :
    (vlcGetStep (fun _ v => v) (sampleStream []) ⟨0, some 7⟩).state.Q = [7] ∧
    (vlcGetStep (fun _ v => v) (sampleStream []) ⟨0, some 7⟩).effects =
      [Effect.sleep (1 / ((30 : Int) : ℚ))] := by
  exact ⟨rfl, rfl⟩

/-- C4 amended: after a successful capture-and-insert iteration, BOTH
backends pace themselves by sleeping `1 / frame_rate`: the snapshot (vlc)
loop on every successful capture, the continuous (cv2) loop on every
successful capture that passes its producer-pause valve
(`len(Q) <= max_cache`). -/
theorem C4_pacing_sleep_both_backends {V : Type}
    (cropApply : List Int → V → V) (s : VideoStream V) (e : GetEnv V)
    (f0 : V) (fps : Int)
    (hs : s.stopped = false) (hcap : e.capture = some f0)
    (hfps : s.fps = some fps) (hpos : 0 < fps) :
    Effect.sleep (1 / (fps : ℚ)) ∈ (vlcGetStep cropApply s e).effects ∧
    (s.Q.length ≤ s.max_cache →
      Effect.sleep (1 / (fps : ℚ)) ∈ (cv2GetStep cropApply s e).effects) := by
  constructor
  · unfold vlcGetStep
    rw [if_neg (by simp [hs]), hcap]
    exact successStep_sleep cropApply false s e f0 fps hfps hpos
  · intro hvalve
    unfold cv2GetStep
    rw [if_neg (by simp [hs]), if_neg (by omega), hcap]
    exact successStep_sleep cropApply true s e f0 fps hfps hpos

/-- C4 witness for the amended claim: the concrete running worker (fps 30,
empty buffer, so the cv2 valve passes) emits the 1/30 s pacing sleep on a
successful capture under both backends. -/
theorem C4_pacing_sleep_witness :
    Effect.sleep (1 / ((30 : Int) : ℚ)) ∈
      (vlcGetStep (fun _ v => v) (sampleStream []) ⟨0, some 7⟩).effects ∧
    Effect.sleep (1 / ((30 : Int) : ℚ)) ∈
      (cv2GetStep (fun _ v => v) (sampleStream []) ⟨0, some 7⟩).effects := by
  have h := C4_pacing_sleep_both_backends (fun _ v => v) (sampleStream [])
    ⟨0, some 7⟩ 7 30 rfl rfl rfl (by decide)
  exact ⟨h.1, h.2 (by decide)⟩

/-- C5: the `usb` and `file` branches behave as claimed (integer device
index; existence-validated path), but the network branch is unreachable as
written: `video_manager.py:142-144` evaluates `set("rtsp", "http", "https")`,
which passes three arguments to `set()` and raises
`TypeError: set expected at most 1 argument` before the membership assertion
runs, so every `rtsp`/`http`/`https` line — including the rtsp examples in
`from_list_file`'s own docstring — raises instead of parsing. -/
theorem C5_from_list_file_line_parsing :
    parseLine (fun _ => true) "webcam1,usb:0" =
      some (Except.ok ⟨"webcam1", "usb", StreamAddr.usbIdx 0, none⟩) ∧
    parseLine (fun _ => true) "my_video_file,file:my_video_file.mp4,25" =
      some (Except.ok ⟨"my_video_file", "file",
        StreamAddr.filePath "my_video_file.mp4", some "25"⟩) ∧
    parseLine (fun _ => false) "my_video_file,file:missing.mp4" =
      some (Except.error
        "AssertionError: defined as file but it does not exist") ∧
    parseLine (fun _ => true) "stream1,rtsp://192.168.1.39:554/stream" =
      some (Except.error "TypeError: set expected at most 1 argument, got 3") ∧
    parseLine (fun _ => true) "cam2,http://192.168.1.40/video" =
      some (Except.error "TypeError: set expected at most 1 argument, got 3") ∧
    parseLine (fun _ => true) "cam3,https://192.168.1.41/video" =
      some (Except.error "TypeError: set expected at most 1 argument, got 3") := by
  exact ⟨rfl, rfl, rfl, rfl, rfl, rfl⟩

theorem parseListFile_pure_files (fe : String → Bool) (lines : List String)
    (es : List SrcEntry) (pf : Bool)
    (h : parseListFile fe lines = Except.ok (es, pf)) :
    pf = true ↔ ∀ e ∈ es, e.sourceType = "file" := by
  induction lines generalizing es pf with
  | nil =>
    unfold parseListFile at h
    injection h with h'
    injection h' with h1 h2
    subst h1
    subst h2
    simp
  | cons l rest ih =>
    unfold parseListFile at h
    match hline : parseLine fe l with
    | none =>
      rw [hline] at h
      exact ih es pf h
    | some (Except.error e) =>
      rw [hline] at h
      simp at h
    | some (Except.ok entry) =>
      rw [hline] at h
      match hrec : parseListFile fe rest with
      | Except.error e =>
        rw [hrec] at h
        simp [Except.map] at h
      | Except.ok p' =>
        rw [hrec] at h
        simp only [Except.map, Except.ok.injEq] at h
        have hes : entry :: p'.1 = es := congrArg Prod.fst h
        have hpf : ((entry.sourceType == "file") && p'.2) = pf :=
          congrArg Prod.snd h
        subst hes
        subst hpf
        have hih := ih p'.1 p'.2 (by rw [hrec])
        constructor
        · intro hand e he
          rcases List.mem_cons.mp he with he | he
          · subst he
            have := (Bool.and_eq_true _ _).mp hand
            exact beq_iff_eq.mp this.1
          · exact (hih.mp ((Bool.and_eq_true _ _).mp hand).2) e he
        · intro hall
          refine (Bool.and_eq_true _ _).mpr ⟨?_, ?_⟩
          · exact beq_iff_eq.mpr (hall entry (List.mem_cons_self _ _))
          · exact hih.mpr fun e he => hall e (List.mem_cons_of_mem _ he)

/-- C6: when every configured source is of type `file` and no explicit
`queue_size` was passed, `from_list_file` sets the per-worker buffer
capacity to unbounded (`None`); when some source is not a file, the default
of 3 is used; and an explicitly passed `queue_size` is always used as
given. -/
theorem C6_pure_files_unbounded_queue (fe : String → Bool)
    (lines : List String) (es : List SrcEntry) (pf : Bool)
    (h : parseListFile fe lines = Except.ok (es, pf)) :
    ((∀ e ∈ es, e.sourceType = "file") →
      from_list_file fe lines none = Except.ok (es, none)) ∧
    ((¬ ∀ e ∈ es, e.sourceType = "file") →
      from_list_file fe lines none = Except.ok (es, some 3)) ∧
    (∀ qs : Option Nat,
      from_list_file fe lines (some qs) = Except.ok (es, qs)) := by
  have hiff := parseListFile_pure_files fe lines es pf h
  refine ⟨?_, ?_, ?_⟩
  · intro hall
    have hpf : pf = true := hiff.mpr hall
    unfold from_list_file
    rw [h, hpf]
    rfl
  · intro hnot
    have hpf : pf = false := by
      cases hb : pf
      · rfl
      · exact absurd (hiff.mp hb) hnot
    unfold from_list_file
    rw [h, hpf]
    rfl
  · intro qs
    have : (pf && (some qs).isNone) = false := by
      simp
    unfold from_list_file
    rw [h]
    simp only [Except.map, this]
    rfl

/-- C6 witness: an all-file descriptor list with no explicit `queue_size`
yields an unbounded buffer capacity; adding a `usb` source, or passing
`queue_size` explicitly, yields the given/default bounded capacity. -/
theorem C6_pure_files_unbounded_queue_witness :
    from_list_file (fun _ => true) ["a,file:x.mp4", "b,file:y.mp4"] none =
      Except.ok ([⟨"a", "file", StreamAddr.filePath "x.mp4", none⟩,
        ⟨"b", "file", StreamAddr.filePath "y.mp4", none⟩], none) ∧
    from_list_file (fun _ => true) ["a,file:x.mp4", "w,usb:0"] none =
      Except.ok ([⟨"a", "file", StreamAddr.filePath "x.mp4", none⟩,
        ⟨"w", "usb", StreamAddr.usbIdx 0, none⟩], some 3) ∧
    from_list_file (fun _ => true) ["a,file:x.mp4", "b,file:y.mp4"]
        (some (some 5)) =
      Except.ok ([⟨"a", "file", StreamAddr.filePath "x.mp4", none⟩,
        ⟨"b", "file", StreamAddr.filePath "y.mp4", none⟩], some 5) := by
  have h1 := C6_pure_files_unbounded_queue (fun _ => true)
    ["a,file:x.mp4", "b,file:y.mp4"]
    [⟨"a", "file", StreamAddr.filePath "x.mp4", none⟩,
     ⟨"b", "file", StreamAddr.filePath "y.mp4", none⟩] true rfl
  have h2 := C6_pure_files_unbounded_queue (fun _ => true)
    ["a,file:x.mp4", "w,usb:0"]
    [⟨"a", "file", StreamAddr.filePath "x.mp4", none⟩,
     ⟨"w", "usb", StreamAddr.usbIdx 0, none⟩] false rfl
  refine ⟨h1.1 ?_, h2.2.1 ?_, h1.2.2 (some 5)⟩
  · intro e he
    rcases List.mem_cons.mp he with he | he
    · rw [he]
    · rw [List.mem_singleton.mp he]
  · intro hall
    have := hall ⟨"w", "usb", StreamAddr.usbIdx 0, none⟩
      (List.mem_cons_of_mem _ (List.mem_singleton.mpr rfl))
    simp at this

/-- C7: on every reachable worker state, `stop()` immediately followed by
`start()` yields an empty Frame Buffer — no frame inserted before the stop
survives into the restarted stream (`start` spawns the new acquisition loop
but the loop has not yet run when it returns). -/
theorem C7_stop_start_empty_buffer {V : Type} (s : VideoStream V)
    (h : Reachable s) (env : OpenEnv) :
    (s.stop.start env).Q = [] := by
  have hq : s.stop.Q = [] := stop_Q_nil s (reachable_stopped_empty s h)
  unfold VideoStream.start VideoStream.init_src
  dsimp only
  split <;> exact hq

/-- A freshly constructed worker (the result of `VideoStream.__init__` on a
plain file source with source-reported fps). -/
def demoInit : VideoStream Nat :=
  { video_feed_name := "cam1"
    sourceType := "file"
    stopped := true
    inited := false
    streamOpen := true
    Q := []
    maxlen := some 3
    max_cache := 10
    currentFrame := none
    resize_fn := none
    manual_video_fps := none
    fps := none
    vid_width := none
    vid_height := none
    do_reconnect := true
    reconnect_threshold_sec := 20
    pauseTime := none
    printTime := none
    frame_crop := none
    record_source_video := false
    out_vid := false }

/-- C7 witness: construct a worker, `start()` it, let one successful loop
iteration buffer frame 9 — then `stop()` + `start()` leaves the buffer
empty, with the pre-stop frame gone. -/
theorem C7_stop_start_empty_buffer_witness :
    (cv2GetStep (fun _ v => v) (demoInit.start ⟨25, 640, 480⟩)
      ⟨0, some 9⟩).state.Q = [9] ∧
    (((cv2GetStep (fun _ v => v) (demoInit.start ⟨25, 640, 480⟩)
      ⟨0, some 9⟩).state.stop).start ⟨25, 640, 480⟩).Q = [] := by
  refine ⟨rfl, ?_⟩
  exact C7_stop_start_empty_buffer _
    (Reachable.getOp (fun _ v => v) _ ⟨0, some 9⟩
      (Reachable.startOp _ ⟨25, 640, 480⟩
        (Reachable.init
          { video_feed_name := "cam1", sourceType := "file",
            manual_video_fps := -1 }
          demoInit rfl)))
    ⟨25, 640, 480⟩

/-- A worker constructed with an explicitly supplied manual frame rate of 0
(the argument `manual_video_fps = 0`, which is not the -1 "unsupplied"
sentinel). -/
def demoManualZero : VideoStream Nat :=
  { demoInit with manual_video_fps := some 0 }

/-- C8 counterexample: the claim says a supplied manual frame rate is used
unchanged, but `if not self.manual_video_fps` treats a supplied manual rate
of 0 like `None` (Python truthiness): for a worker whose constructor
received `manual_video_fps = 0` (so `manual_video_fps is not None`, and the
source's own `vidInfo` would report `manual_fps_inputted = True`), `open`
against a source reporting 7 fps sets the worker's fps to 7, not 0. -/
theorem C8_manual_zero_counterexample :
    demoManualZero.manual_video_fps = some 0 ∧
    (demoManualZero.init_src ⟨7, 640, 480⟩).fps = some 7 := by
  exact ⟨rfl, rfl⟩

/-- C8 amended: after `open()`, the worker's frame rate is never 0 (so the
pacing `1 / frame_rate` never divides by zero); when no manual rate was
supplied — or when the supplied manual rate is 0, which Python truthiness
lumps with "unsupplied" — the source-reported rate is used with 0 corrected
to the default 30; a supplied non-zero manual rate is used unchanged. -/
theorem C8_fps_zero_defaulted {V : Type} (s : VideoStream V) (env : OpenEnv) :
    (s.init_src env).fps =
      some (initFps s.manual_video_fps env.sourceFps) ∧
    (∀ m sf, initFps m sf ≠ 0) ∧
    (∀ sf, initFps none sf = if sf = 0 then 30 else sf) ∧
    (∀ sf, initFps (some 0) sf = if sf = 0 then 30 else sf) ∧
    (∀ m sf, m ≠ 0 → initFps (some m) sf = m) := by
  refine ⟨rfl, ?_, ?_, ?_, ?_⟩
  · intro m sf
    unfold initFps
    by_cases hm : m = none ∨ m = some 0
    · rw [if_pos hm]
      split
      · decide
      · assumption
    · rw [if_neg hm]
      push_neg at hm
      match m with
      | none => exact absurd rfl hm.1
      | some v =>
        intro hv
        simp only [Option.getD_some] at hv
        exact hm.2 (by rw [hv])
  · intro sf
    unfold initFps
    rw [if_pos (Or.inl rfl)]
  · intro sf
    unfold initFps
    rw [if_pos (Or.inr rfl)]
  · intro m sf hm
    unfold initFps
    rw [if_neg (by simp [hm])]
    rfl

/-- C8 witness: source-reported 0 with no manual rate gives 30; a supplied
manual rate of 25 is used unchanged; the resulting rates are non-zero. -/
theorem C8_fps_zero_defaulted_witness :
    (demoInit.init_src ⟨0, 640, 480⟩).fps = some 30 ∧
    initFps (some 25) 0 = 25 ∧
    initFps none 0 ≠ 0 := by
  have h := C8_fps_zero_defaulted demoInit ⟨0, 640, 480⟩
  refine ⟨?_, h.2.2.2.2 25 0 (by decide), h.2.1 none 0⟩
  rw [h.1]
  show some (initFps none 0) = some 30
  rw [h.2.2.1 0]
  rfl

/-- Whether a fallible computation succeeded (construction did not raise). -/
def exceptOk : Except ε α → Bool
  | Except.ok _ => true
  | Except.error _ => false

/-- C9 counterexample: the claim says negative or oversized crop rectangles
are rejected at construction, but the constructor's only check is
`assert len(frame_crop) == 4`: the crop `[-1, -1, 5, 5]`, which has negative
coordinates, is accepted and construction succeeds. -/
theorem C9_negative_crop_accepted :
    (([-1, -1, 5, 5] : List Int).any (fun x => decide (x < 0))) = true ∧
    exceptOk (VideoStream.mk_init (V := Nat)
      { video_feed_name := "cam1", sourceType := "rtsp",
        manual_video_fps := -1, frame_crop := some [-1, -1, 5, 5] }) =
      true := by
  exact ⟨rfl, rfl⟩

/-- C9 amended: construction checks only the crop rectangle's arity — it
succeeds exactly when a supplied `frame_crop` has 4 entries (regardless of
sign or size), and always succeeds when no crop is supplied. -/
theorem C9_crop_arity_check {V : Type} (cfg : StreamConfig V) :
    (∀ fc, cfg.frame_crop = some fc →
      (exceptOk (VideoStream.mk_init cfg) = true ↔ fc.length = 4)) ∧
    (cfg.frame_crop = none → exceptOk (VideoStream.mk_init cfg) = true) := by
  constructor
  · intro fc hfc
    unfold VideoStream.mk_init frameCropAssertPasses
    rw [hfc]
    by_cases hl : fc.length = 4
    · rw [if_pos (by simp [hl])]
      simp [exceptOk, hl]
    · rw [if_neg (by simp [hl])]
      simp [exceptOk, hl]
  · intro hfc
    unfold VideoStream.mk_init frameCropAssertPasses
    rw [hfc]
    rfl

/-- C9 witness: a supplied crop of length 3 is rejected, a supplied
(negative) crop of length 4 is accepted, no crop is accepted. -/
theorem C9_crop_arity_check_witness :
    exceptOk (VideoStream.mk_init (V := Nat)
      { video_feed_name := "c", sourceType := "rtsp",
        manual_video_fps := -1, frame_crop := some [0, 0, 5] }) = false ∧
    exceptOk (VideoStream.mk_init (V := Nat)
      { video_feed_name := "c", sourceType := "rtsp",
        manual_video_fps := -1, frame_crop := some [0, 0, -5, -5] }) = true ∧
    exceptOk (VideoStream.mk_init (V := Nat)
      { video_feed_name := "c", sourceType := "rtsp",
        manual_video_fps := -1 }) = true := by
  have h1 := (C9_crop_arity_check (V := Nat)
    { video_feed_name := "c", sourceType := "rtsp",
      manual_video_fps := -1, frame_crop := some [0, 0, 5] }).1
    [0, 0, 5] rfl
  have h2 := (C9_crop_arity_check (V := Nat)
    { video_feed_name := "c", sourceType := "rtsp",
      manual_video_fps := -1, frame_crop := some [0, 0, -5, -5] }).1
    [0, 0, -5, -5] rfl
  have h3 := (C9_crop_arity_check (V := Nat)
    { video_feed_name := "c", sourceType := "rtsp",
      manual_video_fps := -1 }).2 rfl
  refine ⟨?_, h2.mpr (by decide), h3⟩
  cases hb : exceptOk (VideoStream.mk_init (V := Nat)
    { video_feed_name := "c", sourceType := "rtsp",
      manual_video_fps := -1, frame_crop := some [0, 0, 5] })
  · rfl
  · exact absurd (h1.mp hb) (by decide)

/-- A worker with one buffered frame and a non-idempotent resize hook
(`resize_fn = lambda x: x + 1` pointwise). -/
def resizeStream : VideoStream Nat :=
  { sampleStream [5] with resize_fn := some (fun x => x.map (fun n => n + 1)) }

/-- C10 counterexample: the claim says an empty-buffer `read()` returns the
most recently delivered frame again, but `read()` re-applies the resize
hook to `currentFrame` on every call: with hook `+1` and buffer `[5]`, the
first `read()` delivers 6; the second `read()` (buffer now empty) delivers
7 — not the 6 that was most recently delivered. -/
theorem C10_stale_read_reapplies_resize :
    resizeStream.read.1 = some 6 ∧
    resizeStream.read.2.Q = [] ∧
    resizeStream.read.2.read.1 = some 7 := by
  exact ⟨rfl, rfl, rfl⟩

/-- C10 amended: on an empty Frame Buffer, `VideoStream.read()` neither
raises nor returns an empty marker: it pops nothing and returns
`currentFrame` with the optional resize hook applied once more — which is
exactly the most recently delivered frame (or `None` if none was ever
delivered) whenever no resize hook is set.  The empty-marker signaling
exists only in `VideoManager.read()`, which checks `more()` and never calls
the worker's `read()` on an empty buffer. -/
theorem C10_empty_read_stale_frame {V : Type} (s : VideoStream V)
    (h : s.Q = []) :
    s.read.1 = applyResize s.resize_fn s.currentFrame ∧
    s.read.2.Q = [] ∧
    s.read.2.currentFrame = applyResize s.resize_fn s.currentFrame ∧
    (s.resize_fn = none → s.read.1 = s.currentFrame) ∧
    VideoManager.read [s] = ([AggEntry.emptyMarker], [s]) := by
  have hm : s.more = false := by simp [VideoStream.more, h]
  unfold VideoStream.read VideoManager.read applyResize
  dsimp only
  rw [if_neg (by simp [hm]), if_neg (by simp [hm])]
  cases hr : s.resize_fn <;> simp [hr, h] <;> exact ⟨rfl, rfl⟩

/-- C10 witness: a hook-less worker with empty buffer and last delivered
frame 9 — empty-buffer `read()` returns 9 again without touching the
buffer, and the single-worker manager read emits the empty marker leaving
the worker untouched. -/
theorem C10_empty_read_stale_frame_witness :
    ({ sampleStream [] with currentFrame := some 9 } :
      VideoStream Nat).read.1 = some 9 ∧
    VideoManager.read [({ sampleStream [] with currentFrame := some 9 } :
      VideoStream Nat)] =
      ([AggEntry.emptyMarker],
        [({ sampleStream [] with currentFrame := some 9 } :
          VideoStream Nat)]) := by
  have h := C10_empty_read_stale_frame
    ({ sampleStream [] with currentFrame := some 9 } : VideoStream Nat) rfl
  exact ⟨h.2.2.2.1 rfl, h.2.2.2.2⟩

end VideoUtils
